import Mathlib

/-!
Verification of the wingman MCP client core against its specification.

Each Python module relevant to the claims is shallowly embedded as Lean
definitions: dataclasses become structures, enums become inductives,
mutating methods become functions returning the updated value, raised
exceptions become explicit error components, and wall-clock reads
(datetime.now) become an explicit time parameter.  Wire-format dicts are
embedded as structures whose Option fields record key presence.
-/

set_option maxRecDepth 4096

namespace Wingman

/-! ## Task state machine (src/wingman/mcp/tasks/state.py) -/

/-- TaskState enum: task lifecycle states. -/
inductive TaskState where
  | pending
  | running
  | completed
  | failed
  | cancelled
deriving DecidableEq, Repr

/-- Wire value of a TaskState, as in the Python enum. -/
def TaskState.value : TaskState → String
  | .pending => "pending"
  | .running => "running"
  | .completed => "completed"
  | .failed => "failed"
  | .cancelled => "cancelled"

/-- Inverse lookup TaskState(s) by enum value; none models the ValueError. -/
def TaskState.ofValue (s : String) : Option TaskState :=
  if s = "pending" then some .pending
  else if s = "running" then some .running
  else if s = "completed" then some .completed
  else if s = "failed" then some .failed
  else if s = "cancelled" then some .cancelled
  else none

/-- Terminal-state test, as in Task.is_terminal and the tuple used in
Task.transition. -/
def TaskState.isTerminal : TaskState → Bool
  | .completed => true
  | .failed => true
  | .cancelled => true
  | _ => false

/-- Data of the InvalidTaskTransition exception. -/
structure InvalidTaskTransition where
  taskId : String
  fromState : TaskState
  toState : TaskState
deriving DecidableEq, Repr

/-- TaskProgress dataclass: current, optional total, optional message.
Python ints and floats on this path are ints; modeled as Int. -/
structure TaskProgress where
  current : Int
  total : Option Int := none
  message : Option String := none
deriving DecidableEq, Repr

/-- TaskError dataclass.  The freeform data payload is a type parameter. -/
structure TaskError (α : Type) where
  code : Int
  message : String
  data : Option α := none
deriving DecidableEq, Repr

/-- Task dataclass.  datetime values are modeled as Nat timestamps; the
freeform result/metadata values are a type parameter (Python Any). -/
structure Task (α : Type) where
  id : String
  type : String := "tools/call"
  state : TaskState := .pending
  progress : Option TaskProgress := none
  result : Option α := none
  error : Option (TaskError α) := none
  createdAt : Nat
  updatedAt : Nat
  startedAt : Option Nat := none
  completedAt : Option Nat := none
  metadata : List (String × α) := []
deriving DecidableEq, Repr

/-- VALID_TRANSITIONS table from the Task dataclass. -/
def VALID_TRANSITIONS : TaskState → List TaskState
  | .pending => [.running, .cancelled]
  | .running => [.completed, .failed, .cancelled]
  | .completed => []
  | .failed => []
  | .cancelled => []

/-- Task.transition: validates against VALID_TRANSITIONS, then sets state,
re-stamps updated_at with now, sets started_at on entry to RUNNING, and
sets completed_at on entry to a terminal state.  The raised
InvalidTaskTransition is returned alongside the (then unmodified) task. -/
def Task.transition {α : Type} (t : Task α) (newState : TaskState) (now : Nat) :
    Task α × Option InvalidTaskTransition :=
  if newState ∈ VALID_TRANSITIONS t.state then
    let t1 := { t with state := newState, updatedAt := now }
    let t2 :=
      if newState = TaskState.running then { t1 with startedAt := some now }
      else if newState.isTerminal then { t1 with completedAt := some now }
      else t1
    (t2, none)
  else
    (t, some ⟨t.id, t.state, newState⟩)

/-- C1: for every Task and every call to Task.transition, the transition
succeeds exactly along the permitted edges (PENDING to RUNNING or CANCELLED;
RUNNING to COMPLETED, FAILED, or CANCELLED; terminal states have no exits);
on success updated_at is re-stamped with the current time (strictly greater
than the old stamp when the clock advanced), started_at is set on entry to
RUNNING, and completed_at is set iff the new state is terminal (given the
reachable-task invariant that completed_at was set iff the old state was
terminal). -/
theorem task_transition_edges_and_stamps {α : Type} (t : Task α)
    (s : TaskState) (now : Nat)
    (hwf : t.completedAt.isSome = t.state.isTerminal)
    (hclock : t.updatedAt < now) :
    ((Task.transition t s now).2 = none ↔ s ∈ VALID_TRANSITIONS t.state) ∧
    ((Task.transition t s now).2 = none →
      (Task.transition t s now).1.state = s ∧
      (Task.transition t s now).1.updatedAt = now ∧
      t.updatedAt < (Task.transition t s now).1.updatedAt ∧
      (s = TaskState.running → (Task.transition t s now).1.startedAt = some now) ∧
      (Task.transition t s now).1.completedAt.isSome = s.isTerminal) := by
  cases hco : t.completedAt with
  | some v =>
    rw [hco] at hwf
    cases ht : t.state <;> rw [ht] at hwf <;> simp [TaskState.isTerminal] at hwf <;>
      cases s <;>
      simp [Task.transition, VALID_TRANSITIONS, TaskState.isTerminal, ht, hco, hclock]
  | none =>
    rw [hco] at hwf
    cases ht : t.state <;> rw [ht] at hwf <;> simp [TaskState.isTerminal] at hwf <;>
      cases s <;>
      simp [Task.transition, VALID_TRANSITIONS, TaskState.isTerminal, ht, hco, hclock]

/-- Concrete task used by witnesses. -/
def taskW : Task Unit :=
  { id := "t-1", createdAt := 1, updatedAt := 1 }

/-- Witness for C1: the theorem applied to a concrete pending task moving
to RUNNING at time 5. -/
theorem task_transition_edges_and_stamps_witness :
    (taskW.completedAt.isSome = taskW.state.isTerminal ∧ taskW.updatedAt < 5) ∧
    (((Task.transition taskW TaskState.running 5).2 = none ↔
        TaskState.running ∈ VALID_TRANSITIONS taskW.state) ∧
      ((Task.transition taskW TaskState.running 5).2 = none →
        (Task.transition taskW TaskState.running 5).1.state = TaskState.running ∧
        (Task.transition taskW TaskState.running 5).1.updatedAt = 5 ∧
        taskW.updatedAt < (Task.transition taskW TaskState.running 5).1.updatedAt ∧
        (TaskState.running = TaskState.running →
          (Task.transition taskW TaskState.running 5).1.startedAt = some 5) ∧
        (Task.transition taskW TaskState.running 5).1.completedAt.isSome =
          TaskState.running.isTerminal)) :=
  ⟨⟨rfl, by decide⟩,
   task_transition_edges_and_stamps taskW TaskState.running 5 rfl (by decide)⟩

/-! ## Protocol state machine (src/wingman/mcp/protocol/state.py) -/

/-- ProtocolState enum: protocol lifecycle states. -/
inductive ProtocolState where
  | disconnected
  | connecting
  | initializing
  | ready
  | closing
  | closed
deriving DecidableEq, Repr

/-- Data of the InvalidStateTransition exception. -/
structure InvalidStateTransition where
  fromState : ProtocolState
  toState : ProtocolState
deriving DecidableEq, Repr

/-- VALID_TRANSITIONS table of ProtocolStateMachine. -/
def PSM_VALID_TRANSITIONS : ProtocolState → List ProtocolState
  | .disconnected => [.connecting]
  | .connecting => [.initializing, .disconnected]
  | .initializing => [.ready, .disconnected]
  | .ready => [.closing, .disconnected]
  | .closing => [.closed, .disconnected]
  | .closed => []

/-- ProtocolStateMachine: the current state plus the registered transition
listeners.  Callbacks are opaque, so only their count is tracked; the
notifications fired by a transition are the list of (old, new) pairs
delivered, one per listener. -/
structure ProtocolStateMachine where
  state : ProtocolState
  listeners : Nat := 0
deriving DecidableEq, Repr

/-- ProtocolStateMachine.can_transition_to. -/
def ProtocolStateMachine.can_transition_to (m : ProtocolStateMachine)
    (newState : ProtocolState) : Bool :=
  newState ∈ PSM_VALID_TRANSITIONS m.state

/-- ProtocolStateMachine.transition: validates the edge, updates the state,
then notifies every listener with (old_state, new_state).  On an invalid
edge the InvalidStateTransition is raised before any mutation or listener
call, so the machine is returned unchanged with no notifications. -/
def ProtocolStateMachine.transition (m : ProtocolStateMachine)
    (newState : ProtocolState) :
    ProtocolStateMachine × List (ProtocolState × ProtocolState) ×
      Option InvalidStateTransition :=
  if m.can_transition_to newState then
    ({ m with state := newState },
     List.replicate m.listeners (m.state, newState), none)
  else
    (m, [], some ⟨m.state, newState⟩)

/-- ProtocolStateMachine.force_state: bypasses validation. -/
def ProtocolStateMachine.force_state (m : ProtocolStateMachine)
    (newState : ProtocolState) :
    ProtocolStateMachine × List (ProtocolState × ProtocolState) :=
  ({ m with state := newState }, List.replicate m.listeners (m.state, newState))

/-- TaskManager._transition_task: runs Task.transition, and only after a
successful transition invokes the on_state_change callback (when one is
registered) with (old_state, new_state).  A raised InvalidTaskTransition
propagates with no callback invocation. -/
def transition_task {α : Type} (hasCallback : Bool) (t : Task α)
    (s : TaskState) (now : Nat) :
    (Task α × List (TaskState × TaskState)) × Option InvalidTaskTransition :=
  match Task.transition t s now with
  | (t1, none) => ((t1, if hasCallback then [(t.state, s)] else []), none)
  | (t1, some e) => ((t1, []), some e)

/-- C9: an attempted transition to a target state not permitted from the
current state raises InvalidStateTransition from
ProtocolStateMachine.transition and InvalidTaskTransition from
Task.transition; in both cases the state (and for Task also updated_at,
started_at and completed_at) is left unchanged and no transition listener
or state-change callback is invoked. -/
theorem invalid_transition_rejected_unchanged :
    (∀ (m : ProtocolStateMachine) (s : ProtocolState),
      s ∉ PSM_VALID_TRANSITIONS m.state →
      m.transition s = (m, [], some ⟨m.state, s⟩)) ∧
    (∀ (α : Type) (t : Task α) (s : TaskState) (now : Nat) (b : Bool),
      s ∉ VALID_TRANSITIONS t.state →
      Task.transition t s now = (t, some ⟨t.id, t.state, s⟩) ∧
      transition_task b t s now = ((t, []), some ⟨t.id, t.state, s⟩)) := by
  constructor
  · intro m s h
    simp [ProtocolStateMachine.transition, ProtocolStateMachine.can_transition_to, h]
  · intro α t s now b h
    have ht : Task.transition t s now = (t, some ⟨t.id, t.state, s⟩) := by
      simp [Task.transition, h]
    exact ⟨ht, by simp [transition_task, ht]⟩

/-- Witness for C9: a READY machine refuses READY to CONNECTING, and a
completed task refuses COMPLETED to RUNNING, both without any effect. -/
theorem invalid_transition_rejected_unchanged_witness :
    (ProtocolState.connecting ∉ PSM_VALID_TRANSITIONS ProtocolState.ready ∧
      ProtocolStateMachine.transition ⟨ProtocolState.ready, 2⟩ ProtocolState.connecting =
        (⟨ProtocolState.ready, 2⟩, [], some ⟨ProtocolState.ready, ProtocolState.connecting⟩)) ∧
    (TaskState.running ∉ VALID_TRANSITIONS TaskState.completed ∧
      Task.transition { taskW with state := TaskState.completed } TaskState.running 7 =
        ({ taskW with state := TaskState.completed },
         some ⟨taskW.id, TaskState.completed, TaskState.running⟩)) :=
  ⟨⟨by decide,
    invalid_transition_rejected_unchanged.1 ⟨ProtocolState.ready, 2⟩
      ProtocolState.connecting (by decide)⟩,
   ⟨by decide,
    (invalid_transition_rejected_unchanged.2 Unit
      { taskW with state := TaskState.completed } TaskState.running 7 false
      (by decide)).1⟩⟩

/-! ## Task execution (src/wingman/mcp/tasks/manager.py) -/

/-- Outcome of awaiting executor(task) under asyncio.wait_for: a returned
value, a deadline overrun (asyncio.TimeoutError), an external cancel
(asyncio.CancelledError), or any other raised exception with its str(). -/
inductive ExecOutcome (α : Type) where
  | success (v : α)
  | timedOut
  | cancelled
  | raised (msg : String)
deriving DecidableEq, Repr

/-- Exception escaping TaskManager._execute_task itself.  It runs inside a
background asyncio task created by create_task, so such an exception is
absorbed by the event loop and can never reach the caller of create_task. -/
inductive ExecExn where
  | cancelledExn
  | invalidTransitionExn (e : InvalidTaskTransition)
deriving DecidableEq, Repr

/-- Message carried by an InvalidTaskTransition exception (str(e)). -/
def InvalidTaskTransition.text (e : InvalidTaskTransition) : String :=
  "Cannot transition task " ++ e.taskId ++ " from " ++ e.fromState.value ++
    " to " ++ e.toState.value

/-- Shared tail of _execute_task error handling: store a TaskError on the
task, then transition it to FAILED; an InvalidTaskTransition raised by that
transition escapes the method. -/
def failTask {α : Type} (t : Task α) (code : Int) (msg : String) (now : Nat) :
    Task α × Option ExecExn :=
  let t1 := { t with error := some ⟨code, msg, none⟩ }
  match Task.transition t1 TaskState.failed now with
  | (t2, none) => (t2, none)
  | (t2, some e) => (t2, some (.invalidTransitionExn e))

/-- TaskManager._execute_task: transition to RUNNING, await executor(task)
under the deadline, then branch.  now1/now2 are the clock readings at the
two transitions; timeoutStr is the formatted timeout inserted into the
timeout message.  The on_state_change callback of _transition_task does not
alter the task and is omitted here. -/
def execute_task {α : Type} (t : Task α) (outcome : ExecOutcome α)
    (now1 now2 : Nat) (timeoutStr : String) : Task α × Option ExecExn :=
  match Task.transition t TaskState.running now1 with
  | (t1, some e) =>
      -- the raised InvalidTaskTransition is caught by the generic
      -- `except Exception` clause: error -32603, then transition to FAILED
      failTask t1 (-32603) e.text now2
  | (t1, none) =>
      match outcome with
      | .success v =>
          match Task.transition { t1 with result := some v } TaskState.completed now2 with
          | (t2, none) => (t2, none)
          | (t2, some e) =>
              failTask t2 (-32603) e.text now2
      | .timedOut =>
          failTask t1 (-32001) ("Task timed out after " ++ timeoutStr ++ "s") now2
      | .cancelled =>
          -- transition to CANCELLED (InvalidTaskTransition swallowed),
          -- then the CancelledError is re-raised
          match Task.transition t1 TaskState.cancelled now2 with
          | (t2, _) => (t2, some .cancelledExn)
      | .raised msg =>
          failTask t1 (-32603) msg now2

/-- C7: for a task started by TaskManager.create_task (hence PENDING when
its executor begins), a deadline overrun leaves the task FAILED with a
TaskError of code -32001 and a non-cancellation executor exception leaves
it FAILED with a TaskError of code -32603; in neither case does any
exception escape _execute_task, and since the executor runs in a detached
background task, nothing can propagate to the caller of create_task. -/
theorem execute_task_failures_contained {α : Type} (t : Task α)
    (now1 now2 : Nat) (timeoutStr msg : String)
    (hpending : t.state = TaskState.pending) :
    ((execute_task t (ExecOutcome.timedOut (α := α)) now1 now2 timeoutStr).1.state =
        TaskState.failed ∧
      (execute_task t (ExecOutcome.timedOut (α := α)) now1 now2 timeoutStr).1.error =
        some ⟨-32001, "Task timed out after " ++ timeoutStr ++ "s", none⟩ ∧
      (execute_task t (ExecOutcome.timedOut (α := α)) now1 now2 timeoutStr).2 = none) ∧
    ((execute_task t (ExecOutcome.raised msg) now1 now2 timeoutStr).1.state =
        TaskState.failed ∧
      (execute_task t (ExecOutcome.raised msg) now1 now2 timeoutStr).1.error =
        some ⟨-32603, msg, none⟩ ∧
      (execute_task t (ExecOutcome.raised msg) now1 now2 timeoutStr).2 = none) := by
  refine ⟨?_, ?_⟩ <;>
    simp [execute_task, failTask, Task.transition, VALID_TRANSITIONS, hpending,
      TaskState.isTerminal]

/-- Witness for C7: the theorem applied to the concrete pending task taskW. -/
theorem execute_task_failures_contained_witness :
    taskW.state = TaskState.pending ∧
    ((execute_task taskW (ExecOutcome.timedOut (α := Unit)) 2 3 "300.0").1.state =
        TaskState.failed ∧
      (execute_task taskW (ExecOutcome.timedOut (α := Unit)) 2 3 "300.0").1.error =
        some ⟨-32001, "Task timed out after " ++ "300.0" ++ "s", none⟩ ∧
      (execute_task taskW (ExecOutcome.timedOut (α := Unit)) 2 3 "300.0").2 = none) ∧
    ((execute_task taskW (ExecOutcome.raised "boom") 2 3 "300.0").1.state =
        TaskState.failed ∧
      (execute_task taskW (ExecOutcome.raised "boom") 2 3 "300.0").1.error =
        some ⟨-32603, "boom", none⟩ ∧
      (execute_task taskW (ExecOutcome.raised "boom") 2 3 "300.0").2 = none) :=
  ⟨rfl,
   (execute_task_failures_contained taskW 2 3 "300.0" "boom" rfl).1,
   (execute_task_failures_contained taskW 2 3 "300.0" "boom" rfl).2⟩

/-! ## Client capabilities (src/wingman/mcp/capabilities/client.py)

The wire dict built by to_dict and read by from_dict is embedded as a
structure whose Option fields record key presence: an absent key is none.
Sub-dicts whose only content is key presence become Bool fields. -/

/-- TasksCapability dataclass.  The requests matrix dict[str, dict[str, bool]]
is an association list. -/
structure TasksCapability where
  list : Bool := true
  cancel : Bool := true
  requests : List (String × List (String × Bool)) := []
deriving DecidableEq, Repr

/-- ClientCapabilities dataclass.  sampling has no sub-fields, so presence
is a Bool; roots carries list_changed; elicitation carries (form, url);
experimental is an opaque payload of type ε (dict[str, Any] in Python). -/
structure ClientCapabilities (ε : Type) where
  sampling : Bool := false
  roots : Option Bool := none
  elicitation : Option (Bool × Bool) := none
  tasks : Option TasksCapability := none
  experimental : Option ε := none
deriving DecidableEq, Repr

/-- Wire form of the capabilities dict.  The roots sub-dict may in general
lack the listChanged key and the tasks sub-dict may lack the requests key,
hence the nested Options; list/cancel/form/url are key-presence flags. -/
structure CapsDict (ε : Type) where
  sampling : Option Unit := none
  roots : Option (Option Bool) := none
  elicitation : Option (Bool × Bool) := none
  tasks : Option (Bool × Bool × Option (List (String × List (String × Bool)))) := none
  experimental : Option ε := none

/-- ClientCapabilities.to_dict: key presence mirrors field presence;
elicitation emits the form/url keys iff the flags are set; tasks emits the
list/cancel keys iff set and the requests key iff the matrix is non-empty
(Python dict truthiness). -/
def ClientCapabilities.to_dict {ε : Type} (c : ClientCapabilities ε) : CapsDict ε :=
  { sampling := if c.sampling then some () else none
    roots := c.roots.map fun lc => some lc
    elicitation := c.elicitation
    tasks := c.tasks.map fun tc =>
      (tc.list, tc.cancel, if tc.requests.isEmpty then none else some tc.requests)
    experimental := c.experimental }

/-- ClientCapabilities.from_dict: presence of a key opts in; a roots dict
without listChanged defaults to True; a tasks dict without requests
defaults to the empty matrix. -/
def ClientCapabilities.from_dict {ε : Type} (d : CapsDict ε) : ClientCapabilities ε :=
  { sampling := d.sampling.isSome
    roots := d.roots.map fun lc => lc.getD true
    elicitation := d.elicitation
    tasks := d.tasks.map fun p => ⟨p.1, p.2.1, (p.2.2).getD []⟩
    experimental := d.experimental }

/-! ## Task wire form (src/wingman/mcp/tasks/state.py) -/

/-- Wire form of a Task as built by Task.to_dict and read by Task.from_dict.
Keys createdAt/updatedAt/type are always written by to_dict but optional
for from_dict; datetime serialization (isoformat/fromisoformat, an exact
round trip for the aware datetimes the code produces) is the identity on
the Nat timestamps. -/
structure TaskDict (α : Type) where
  id : String
  type : Option String := none
  state : String
  createdAt : Option Nat := none
  updatedAt : Option Nat := none
  startedAt : Option Nat := none
  completedAt : Option Nat := none
  progress : Option TaskProgress := none
  result : Option α := none
  error : Option (TaskError α) := none
  meta : Option (List (String × α)) := none
deriving DecidableEq, Repr

/-- Task.to_dict: id/type/state/createdAt/updatedAt always; progress,
result, error, startedAt, completedAt when set (dataclass and datetime
values are always truthy, result uses an explicit None test); the _meta
key when metadata is non-empty. -/
def Task.to_dict {α : Type} (t : Task α) : TaskDict α :=
  { id := t.id
    type := some t.type
    state := t.state.value
    createdAt := some t.createdAt
    updatedAt := some t.updatedAt
    progress := t.progress
    result := t.result
    error := t.error
    startedAt := t.startedAt
    completedAt := t.completedAt
    meta := if t.metadata.isEmpty then none else some t.metadata }

/-- Task.from_dict: TaskState(data["state"]) may raise ValueError (none);
type defaults to tools/call, _meta to the empty dict, and the created/
updated stamps default to the current time when their keys are absent. -/
def Task.from_dict {α : Type} (now : Nat) (d : TaskDict α) : Option (Task α) :=
  (TaskState.ofValue d.state).map fun st =>
    { id := d.id
      type := d.type.getD "tools/call"
      state := st
      metadata := d.meta.getD []
      createdAt := d.createdAt.getD now
      updatedAt := d.updatedAt.getD now
      startedAt := d.startedAt
      completedAt := d.completedAt
      progress := d.progress
      error := d.error
      result := d.result }

/-- TaskState round trip through its wire value. -/
theorem TaskState.ofValue_value (s : TaskState) : TaskState.ofValue s.value = some s := by
  cases s <;> rfl

/-- C8: from_dict inverts to_dict, for every constructible ClientCapabilities
value and every constructible Task (at any deserialization time). -/
theorem capabilities_and_task_roundtrip :
    (∀ (ε : Type) (c : ClientCapabilities ε),
      ClientCapabilities.from_dict (ClientCapabilities.to_dict c) = c) ∧
    (∀ (α : Type) (t : Task α) (now : Nat),
      Task.from_dict now (Task.to_dict t) = some t) := by
  constructor
  · intro ε c
    obtain ⟨sa, ro, el, ta, ex⟩ := c
    simp [ClientCapabilities.to_dict, ClientCapabilities.from_dict]
    constructor
    · cases sa <;> simp
    constructor
    · cases ro <;> simp
    · cases ta with
      | none => simp
      | some tc =>
        obtain ⟨l, cn, rq⟩ := tc
        cases rq <;> simp [List.isEmpty]
  · intro α t now
    obtain ⟨i, ty, st, pr, re, er, ca, ua, sa, co, md⟩ := t
    simp [Task.to_dict, Task.from_dict, TaskState.ofValue_value]
    cases md <;> simp [List.isEmpty]

/-! ## Progress tracking (src/wingman/mcp/utilities/types.py and
src/wingman/mcp/utilities/progress.py) -/

/-- Progress token: str | int. -/
inductive PToken where
  | str (v : String)
  | int (v : Int)
deriving DecidableEq, Repr

/-- ProgressInfo dataclass; float progress values are modeled as rationals. -/
structure ProgressInfo where
  progressToken : PToken
  progress : Rat
  total : Option Rat := none
  message : Option String := none
deriving DecidableEq, Repr

/-- ProgressInfo.is_complete: progress >= total when a total is known,
False otherwise. -/
def ProgressInfo.is_complete (info : ProgressInfo) : Bool :=
  match info.total with
  | some tot => info.progress ≥ tot
  | none => false

/-- ProgressTracker state: the active dict token -> last ProgressInfo and
the completed set. -/
structure ProgressTracker where
  active : List (PToken × ProgressInfo) := []
  completed : List PToken := []

/-- Insert or overwrite a dict entry (dict assignment semantics). -/
def dictInsert (m : List (PToken × ProgressInfo)) (k : PToken) (v : ProgressInfo) :
    List (PToken × ProgressInfo) :=
  (k, v) :: m.filter (fun p => p.1 ≠ k)

/-- Add a token to the completed set (set.add). -/
def setAdd (s : List PToken) (tok : PToken) : List PToken :=
  if tok ∈ s then s else tok :: s

/-- ProgressTracker.start_tracking: reset the token to progress 0 and
discard it from the completed set. -/
def ProgressTracker.start_tracking (tr : ProgressTracker) (tok : PToken) :
    ProgressTracker :=
  { active := dictInsert tr.active tok ⟨tok, 0, none, none⟩
    completed := tr.completed.filter (· ≠ tok) }

/-- ProgressTracker.update: record the info for its token, and add the
token to the completed set when info.is_complete. -/
def ProgressTracker.update (tr : ProgressTracker) (info : ProgressInfo) :
    ProgressTracker :=
  { active := dictInsert tr.active info.progressToken info
    completed :=
      if info.is_complete then setAdd tr.completed info.progressToken
      else tr.completed }

/-- ProgressTracker.is_complete: membership in the completed set. -/
def ProgressTracker.is_complete (tr : ProgressTracker) (tok : PToken) : Bool :=
  decide (tok ∈ tr.completed)

/-- ProgressTracker.remove: drop the token from both structures. -/
def ProgressTracker.remove (tr : ProgressTracker) (tok : PToken) : ProgressTracker :=
  { active := tr.active.filter (fun p => p.1 ≠ tok)
    completed := tr.completed.filter (· ≠ tok) }

/-- ProgressTracker.clear. -/
def ProgressTracker.clear (_ : ProgressTracker) : ProgressTracker := {}

/-- A tracker method call, as driven by ProgressHandler.handle_progress
(update) and the registration surface. -/
inductive TrackerOp where
  | startTracking (tok : PToken)
  | update (info : ProgressInfo)
  | remove (tok : PToken)
  | clear
deriving DecidableEq, Repr

/-- Run a sequence of tracker calls. -/
def runTracker (tr : ProgressTracker) : List TrackerOp → ProgressTracker
  | [] => tr
  | .startTracking tok :: rest => runTracker (tr.start_tracking tok) rest
  | .update info :: rest => runTracker (tr.update info) rest
  | .remove tok :: rest => runTracker (tr.remove tok) rest
  | .clear :: rest => runTracker (tr.clear) rest

/-- Completion provenance: a token in the completed set after a run was
either already completed or completed by some update op in the run. -/
theorem runTracker_completed_source (ops : List TrackerOp)
    (tr : ProgressTracker) (tok : PToken)
    (h : tok ∈ (runTracker tr ops).completed) :
    tok ∈ tr.completed ∨
      ∃ info, TrackerOp.update info ∈ ops ∧ info.progressToken = tok ∧
        info.is_complete = true := by
  induction ops generalizing tr with
  | nil => exact Or.inl h
  | cons op rest ih =>
    cases op with
    | startTracking t =>
      rcases ih _ h with h1 | ⟨info, hmem, htok, hcomp⟩
      · exact Or.inl (List.mem_of_mem_filter h1)
      · exact Or.inr ⟨info, List.mem_cons_of_mem _ hmem, htok, hcomp⟩
    | update info =>
      rcases ih _ h with h1 | ⟨info2, hmem, htok, hcomp⟩
      · simp only [ProgressTracker.update] at h1
        by_cases hc : info.is_complete
        · rw [if_pos hc] at h1
          unfold setAdd at h1
          by_cases hin : info.progressToken ∈ tr.completed
          · rw [if_pos hin] at h1
            exact Or.inl h1
          · rw [if_neg hin] at h1
            rcases List.mem_cons.mp h1 with heq | h1
            · exact Or.inr ⟨info, List.mem_cons_self _ _, heq.symm, hc⟩
            · exact Or.inl h1
        · rw [if_neg hc] at h1
          exact Or.inl h1
      · exact Or.inr ⟨info2, List.mem_cons_of_mem _ hmem, htok, hcomp⟩
    | remove t =>
      rcases ih _ h with h1 | ⟨info, hmem, htok, hcomp⟩
      · exact Or.inl (List.mem_of_mem_filter h1)
      · exact Or.inr ⟨info, List.mem_cons_of_mem _ hmem, htok, hcomp⟩
    | clear =>
      rcases ih _ h with h1 | ⟨info, hmem, htok, hcomp⟩
      · simp [ProgressTracker.clear] at h1
      · exact Or.inr ⟨info, List.mem_cons_of_mem _ hmem, htok, hcomp⟩

/-- C10: ProgressInfo.is_complete is False whenever total is None, so
ProgressTracker.is_complete(token) can return True only when some handled
progress update for that token carried a total with progress >= total;
updates without a total never mark a token complete, whatever the progress
value. -/
theorem tracker_completion_requires_total :
    (∀ info : ProgressInfo, info.total = none → info.is_complete = false) ∧
    (∀ (ops : List TrackerOp) (tok : PToken),
      (runTracker {} ops).is_complete tok = true →
      ∃ info, TrackerOp.update info ∈ ops ∧ info.progressToken = tok ∧
        ∃ tot, info.total = some tot ∧ tot ≤ info.progress) := by
  constructor
  · intro info h
    simp [ProgressInfo.is_complete, h]
  · intro ops tok h
    rw [ProgressTracker.is_complete, decide_eq_true_iff] at h
    rcases runTracker_completed_source ops {} tok h with h1 | ⟨info, hmem, htok, hcomp⟩
    · simp at h1
    · refine ⟨info, hmem, htok, ?_⟩
      unfold ProgressInfo.is_complete at hcomp
      cases hto : info.total with
      | none => rw [hto] at hcomp; simp at hcomp
      | some tot =>
        rw [hto] at hcomp
        exact ⟨tot, rfl, by simpa [ge_iff_le, decide_eq_true_iff] using hcomp⟩

/-- Witness for C10: one update with total 3 and progress 5 marks the token
complete, and the theorem recovers the completing update. -/
theorem tracker_completion_requires_total_witness :
    ((ProgressInfo.mk (PToken.str "t0") 99 none none).is_complete = false) ∧
    ((runTracker {} [TrackerOp.update ⟨PToken.str "t1", 5, some 3, none⟩]).is_complete
        (PToken.str "t1") = true) ∧
    (∃ info,
      TrackerOp.update info ∈ [TrackerOp.update ⟨PToken.str "t1", 5, some 3, none⟩] ∧
      info.progressToken = PToken.str "t1" ∧
      ∃ tot, info.total = some tot ∧ tot ≤ info.progress) :=
  ⟨tracker_completion_requires_total.1 ⟨PToken.str "t0", 99, none, none⟩ rfl,
   by decide,
   tracker_completion_requires_total.2
     [TrackerOp.update ⟨PToken.str "t1", 5, some 3, none⟩]
     (PToken.str "t1") (by decide)⟩

/-! ## Streamable HTTP transport session handling
(src/wingman/mcp/transport/http.py) -/

/-- MCP_SESSION_HEADER constant. -/
def MCP_SESSION_HEADER : String := "Mcp-Session-Id"

/-- Session-relevant state of a StreamableHTTPTransport. -/
structure HTTPTransportState where
  sessionId : Option String := none
  connected : Bool := false
deriving DecidableEq, Repr

/-- Request headers built by _send_internal.  Python evaluates
`if self._session_id:` by truthiness, so the header is attached only when
the stored id is a non-empty string. -/
def sendHeaders (sessionId : Option String) : List (String × String) :=
  [("Content-Type", "application/json"),
   ("Accept", "application/json, text/event-stream")] ++
    (match sessionId with
     | some s => if s = "" then [] else [(MCP_SESSION_HEADER, s)]
     | none => [])

/-- Session extraction in _send_internal: when the response carries the
Mcp-Session-Id header with a value different from the current one, adopt
it (and emit SESSION_ESTABLISHED). -/
def observeSession (sessionId : Option String) (respHeader : Option String) :
    Option String :=
  match respHeader with
  | some v => if sessionId = some v then sessionId else some v
  | none => sessionId

/-- _send_internal restricted to its session behavior: the headers it sends
are computed from the state before the POST, and the state is updated from
the response header. -/
def send_internal (st : HTTPTransportState) (respHeader : Option String) :
    List (String × String) × HTTPTransportState :=
  (sendHeaders st.sessionId, { st with sessionId := observeSession st.sessionId respHeader })

/-- StreamableHTTPTransport.disconnect clears the session id. -/
def http_disconnect (st : HTTPTransportState) : HTTPTransportState :=
  { st with connected := false, sessionId := none }

/-- Transport history entry: a send together with the session header of its
response (none when absent), or a disconnect. -/
inductive TOp where
  | sendRecv (respHeader : Option String)
  | disc
deriving DecidableEq, Repr

/-- Run a transport history. -/
def runTransport (st : HTTPTransportState) : List TOp → HTTPTransportState
  | [] => st
  | .sendRecv h :: rest => runTransport (send_internal st h).2 rest
  | .disc :: rest => runTransport (http_disconnect st) rest

/-- The most recently observed session value along a history: a response
header overwrites it and a disconnect clears it. -/
def lastObservedSession (s : Option String) : List TOp → Option String
  | [] => s
  | .sendRecv (some v) :: rest => lastObservedSession (some v) rest
  | .sendRecv none :: rest => lastObservedSession s rest
  | .disc :: rest => lastObservedSession none rest

/-- First header value for a key, as the HTTP layer would look it up. -/
def headerValue (hs : List (String × String)) (k : String) : Option String :=
  (hs.find? (fun p => p.1 = k)).map (fun p => p.2)

/-- C5 counterexample: the claim fails for an observed empty header value.
A server response carrying Mcp-Session-Id with the empty value is observed
and stored, yet the next outbound send omits the header, because
_send_internal attaches it under a Python truthiness test. -/
theorem session_empty_value_not_echoed :
    (runTransport {} [TOp.sendRecv (some "")]).sessionId = some "" ∧
    headerValue
      (send_internal (runTransport {} [TOp.sendRecv (some "")]) none).1
      MCP_SESSION_HEADER = none := by
  constructor <;> rfl

/-- The stored session id after a history is the most recently observed
value since the last disconnect. -/
theorem runTransport_sessionId (ops : List TOp) (st : HTTPTransportState) :
    (runTransport st ops).sessionId = lastObservedSession st.sessionId ops := by
  induction ops generalizing st with
  | nil => rfl
  | cons op rest ih =>
    cases op with
    | sendRecv h =>
      cases h with
      | some v =>
        rw [runTransport, ih]
        simp only [send_internal, observeSession, lastObservedSession]
        by_cases he : st.sessionId = some v <;> simp [he]
      | none => rw [runTransport, ih]; rfl
    | disc => rw [runTransport, ih]; rfl

/-- C5 as amended: on every StreamableHTTPTransport, once a NON-EMPTY
Mcp-Session-Id value has been observed in a server response, every
subsequent outbound send carries the Mcp-Session-Id request header with the
most recently observed value, until disconnect clears the session; an
observed empty value is stored but never echoed. -/
theorem session_id_echoed_until_disconnect (st : HTTPTransportState)
    (ops : List TOp) :
    headerValue (send_internal (runTransport st ops) none).1 MCP_SESSION_HEADER =
      match lastObservedSession st.sessionId ops with
      | some v => if v = "" then none else some v
      | none => none := by
  rw [send_internal]
  simp only [Prod.fst]
  rw [← runTransport_sessionId]
  cases hs : (runTransport st ops).sessionId with
  | none => rfl
  | some v =>
    by_cases he : v = "" <;>
      simp [sendHeaders, headerValue, he, MCP_SESSION_HEADER, List.find?]

/-! ## Transport configuration validation
(src/wingman/mcp/transport/types.py)

TransportConfig._is_localhost calls urllib.parse.urlparse(url).hostname,
which can itself raise ValueError; both that parser (urlsplit, the
_hostinfo/hostname properties and _check_bracketed_host of CPython 3.11)
and the ipaddress validation it calls are embedded below.  All string
scanning is carried out on String.data (the character list), since the
Lean built-in position-based String primitives do not reduce in the
kernel; each helper names the Python operation it models.  The embedding
is exercised under the http:// guard of __post_init__, where urlsplit's
leading-C0-strip is a no-op and the netloc is the text between the first
:// and the next /, ? or #.  The NFKC check _checknetloc is a no-op for
ASCII netlocs and is not modeled; theorems about arbitrary URLs therefore
carry an ASCII hypothesis. -/

/-- str.startswith(pre). -/
def startswith (s pre : String) : Bool :=
  pre.data.isPrefixOf s.data

/-- Everything after the first occurrence of pat in l, or none when pat
does not occur. -/
def afterSub (pat : List Char) : List Char → Option (List Char)
  | [] => if pat.isEmpty then some [] else none
  | c :: rest =>
      if pat.isPrefixOf (c :: rest) then some ((c :: rest).drop pat.length)
      else afterSub pat rest

/-- str.split(sep) for a one-character separator. -/
def splitOnChar (sep : Char) : List Char → List (List Char)
  | [] => [[]]
  | c :: rest =>
      let r := splitOnChar sep rest
      if c = sep then [] :: r
      else
        match r with
        | h :: t => (c :: h) :: t
        | [] => [[c]]

/-- str.partition(c): the part before the first occurrence of c. -/
def beforeFirstChar (c : Char) (l : List Char) : List Char :=
  l.takeWhile (· ≠ c)

/-- str.partition(c): the part after the first occurrence of c (empty when
c does not occur, as in Python). -/
def afterFirstChar (c : Char) (l : List Char) : List Char :=
  (l.dropWhile (· ≠ c)).drop 1

/-- Membership in ipaddress._HEX_DIGITS (frozenset of string.hexdigits). -/
def isHexDig (c : Char) : Bool :=
  ('0' ≤ c ∧ c ≤ '9') ∨ ('a' ≤ c ∧ c ≤ 'f') ∨ ('A' ≤ c ∧ c ≤ 'F')

/-- An ASCII decimal digit (str.isascii() and str.isdigit() per char). -/
def isDecDig (c : Char) : Bool :=
  '0' ≤ c ∧ c ≤ '9'

/-- ipaddress._BaseV6._parse_hextet succeeds: only hex digits, at most 4
characters, and non-empty (int of the empty string raises). -/
def hextetOk (p : List Char) : Bool :=
  ¬ p.isEmpty ∧ p.length ≤ 4 ∧ p.all isHexDig

/-- Decimal value of a digit list. -/
def octetVal (p : List Char) : Nat :=
  p.foldl (fun n c => n * 10 + (c.toNat - '0'.toNat)) 0

/-- ipaddress._BaseV4._parse_octet succeeds: non-empty, ASCII digits only,
at most 3 characters, no leading zero unless the octet is 0, and at most
255. -/
def octetOk (p : List Char) : Bool :=
  ¬ p.isEmpty ∧ p.all isDecDig ∧ p.length ≤ 3 ∧
    (p = ['0'] ∨ p.headD ' ' ≠ '0') ∧ octetVal p ≤ 255

/-- ipaddress._BaseV4._ip_int_from_string succeeds: non-empty, exactly 4
octets split on dots, each valid. -/
def ipv4Ok (p : List Char) : Bool :=
  ¬ p.isEmpty ∧
    (let octs := splitOnChar '.' p
     octs.length = 4 ∧ octs.all octetOk)

/-- Tail of ipaddress._BaseV6._ip_int_from_string on the colon-split part
list (after any IPv4-suffix replacement): at most 9 parts, at most one
empty interior part marking the double colon, leading or trailing colon
only as part of it, at most 7 other parts with a double colon or exactly
8 non-empty valid hextets without one. -/
def ipv6PartsOk (parts : List (List Char)) : Bool :=
  if 9 < parts.length then false
  else
    let interior := (parts.drop 1).dropLast
    if 2 ≤ interior.countP (·.isEmpty) then false
    else
      match interior.findIdx? (·.isEmpty) with
      | some i =>
          let skip := i + 1
          let n := parts.length
          let headEmpty := (parts.headD []).isEmpty
          let lastEmpty := (parts.getLastD []).isEmpty
          if headEmpty ∧ skip ≠ 1 then false
          else if lastEmpty ∧ skip ≠ n - 2 then false
          else
            let partsHi := if headEmpty then skip - 1 else skip
            let partsLo := if lastEmpty then n - skip - 2 else n - skip - 1
            if 8 ≤ partsHi + partsLo then false
            else
              (parts.take partsHi).all hextetOk ∧
                (parts.drop (n - partsLo)).all hextetOk
      | none =>
          parts.length = 8 ∧ ¬ (parts.headD []).isEmpty ∧
            ¬ (parts.getLastD []).isEmpty ∧ parts.all hextetOk

/-- ipaddress._BaseV6._ip_int_from_string succeeds: non-empty, at least 3
colon-separated parts, a dotted last part parsed as an embedded IPv4
address and replaced by two (always valid) hextets. -/
def ipv6AddrOk (addr : List Char) : Bool :=
  if addr.isEmpty then false
  else
    let parts := splitOnChar ':' addr
    if parts.length < 3 then false
    else if (parts.getLastD []).contains '.' then
      ipv4Ok (parts.getLastD []) ∧ ipv6PartsOk (parts.dropLast ++ [['0'], ['0']])
    else ipv6PartsOk parts

/-- IPv6Address._split_scope_id: partition on the first percent sign; a
present scope id must be non-empty and contain no further percent sign
(none models the raised AddressValueError). -/
def splitScope (h : List Char) : Option (List Char) :=
  if h.contains '%' then
    let scope := afterFirstChar '%' h
    if scope.isEmpty ∨ scope.contains '%' then none
    else some (beforeFirstChar '%' h)
  else some h

/-- IPv4Address(str) succeeds (the slash check of __init__ plus the string
parse). -/
def ipv4FullOk (h : List Char) : Bool :=
  ¬ h.contains '/' ∧ ipv4Ok h

/-- IPv6Address(str) succeeds: the slash check, scope split, and address
parse of __init__. -/
def ipv6FullOk (h : List Char) : Bool :=
  if h.contains '/' then false
  else
    match splitScope h with
    | none => false
    | some addr => ipv6AddrOk addr

/-- urllib.parse._check_bracketed_host does not raise: a host starting
with a lowercase v must match the IPvFuture pattern (v, one or more hex
digits, a dot, then at least one more character — the stripped URL holds
no newline, so the regex dot-any is plain any); otherwise
ipaddress.ip_address must parse it, and an IPv4 result is rejected, so it
must fail as IPv4 and succeed as IPv6. -/
def check_bracketed_host (h : List Char) : Bool :=
  if h.headD ' ' = 'v' then
    match h with
    | [] => false
    | _ :: rest =>
        let hexs := rest.takeWhile isHexDig
        ¬ hexs.isEmpty ∧ (rest.drop hexs.length).headD ' ' = '.' ∧
          ¬ (rest.drop (hexs.length + 1)).isEmpty
  else
    ¬ ipv4FullOk h ∧ ipv6FullOk h

/-- Netloc as urlsplit finds it for a scheme://... URL: tab, CR and LF
removed (_UNSAFE_URL_BYTES_TO_REMOVE), then the text between the first
:// separator and the next /, ? or # (_splitnetloc); none when the URL
has no :// separator (then there is no netloc, hence no hostname). -/
def urlsplitNetloc (url : String) : Option (List Char) :=
  let cleaned := url.data.filter (fun c => c ≠ '\t' ∧ c ≠ '\r' ∧ c ≠ '\n')
  (afterSub "://".data cleaned).map fun rest =>
    rest.takeWhile (fun c => c ≠ '/' ∧ c ≠ '?' ∧ c ≠ '#')

/-- The hostname/_hostinfo properties: strip userinfo up to the last @
(rpartition), take the text between the first bracket pair for a
bracketed host or the part before the port colon otherwise, and if
non-empty lowercase it up to a zone separator, keeping the zone as is. -/
def hostnameFrom (netloc : List Char) : Option String :=
  let hostinfo := (netloc.reverse.takeWhile (· ≠ '@')).reverse
  let raw :=
    if hostinfo.contains '[' then
      beforeFirstChar ']' (afterFirstChar '[' hostinfo)
    else beforeFirstChar ':' hostinfo
  if raw.isEmpty then none
  else
    let pre := beforeFirstChar '%' raw
    some (String.mk (pre.map Char.toLower ++ raw.drop pre.length))

/-- urlparse(url).hostname with urlsplit's netloc validation: a netloc
with an unbalanced bracket raises ValueError (Invalid IPv6 URL), a
balanced bracket pair must pass _check_bracketed_host (on the text
between the first bracket of the whole netloc, userinfo included), and
the error () models the escaping ValueError. -/
def urlsplitHostname (url : String) : Except Unit (Option String) :=
  match urlsplitNetloc url with
  | none => .ok none
  | some netloc =>
      if netloc.contains '[' ≠ netloc.contains ']' then .error ()
      else if netloc.contains '[' ∧ netloc.contains ']' then
        if check_bracketed_host (beforeFirstChar ']' (afterFirstChar '[' netloc)) then
          .ok (hostnameFrom netloc)
        else .error ()
      else .ok (hostnameFrom netloc)

/-- TransportConfig._is_localhost: hostname (or empty when missing) among
the loopback names; a ValueError escaping urlparse propagates. -/
def is_localhost (url : String) : Except Unit Bool :=
  match urlsplitHostname url with
  | .error e => .error e
  | .ok h =>
      let host := h.getD ""
      .ok (host = "localhost" ∨ host = "127.0.0.1" ∨ host = "::1" ∨ host = "[::1]")

/-- ValueError leaving TransportConfig.__post_init__: either one of its
own raises (with its message) or a ValueError propagating out of the
urlparse call inside _is_localhost (whose message varies by raise site). -/
inductive ConfigError where
  | valueError (msg : String)
  | urlparseError
deriving DecidableEq, Repr

/-- Decidable equality of Except values with decidable components. -/
instance instDecEqExcept {ε α : Type} [DecidableEq ε] [DecidableEq α] :
    DecidableEq (Except ε α) := fun x y =>
  match x, y with
  | .error e, .error f =>
      if h : e = f then .isTrue (by rw [h])
      else .isFalse (fun hc => h (Except.error.inj hc))
  | .ok a, .ok b =>
      if h : a = b then .isTrue (by rw [h])
      else .isFalse (fun hc => h (Except.ok.inj hc))
  | .error _, .ok _ => .isFalse (fun hc => Except.noConfusion hc)
  | .ok _, .error _ => .isFalse (fun hc => Except.noConfusion hc)

/-- The timeout, connect_timeout and max_concurrent_requests checks that
close __post_init__, shared below by the http and non-http branches. -/
def numericChecks (timeout connectTimeout : Rat)
    (maxConcurrentRequests : Int) : Except ConfigError Unit :=
  if timeout ≤ 0 then .error (.valueError "timeout must be positive")
  else if connectTimeout ≤ 0 then
    .error (.valueError "connect_timeout must be positive")
  else if maxConcurrentRequests < 1 then
    .error (.valueError "max_concurrent_requests must be at least 1")
  else .ok ()

/-- TransportConfig.__post_init__: empty url rejected; for an http:// url
_is_localhost is consulted (short-circuit: only then), a ValueError from
urlparse propagates, a non-loopback host is rejected; then the numeric
checks run.  Timeout floats are modeled as rationals. -/
def TransportConfig.post_init (url : String) (timeout connectTimeout : Rat)
    (maxConcurrentRequests : Int) : Except ConfigError Unit :=
  if url = "" then .error (.valueError "url is required")
  else if startswith url "http://" then
    match is_localhost url with
    | .error _ => .error .urlparseError
    | .ok false => .error (.valueError "Remote connections must use https://")
    | .ok true => numericChecks timeout connectTimeout maxConcurrentRequests
  else numericChecks timeout connectTimeout maxConcurrentRequests

/-- C6 counterexample: the claim says any non-http scheme fails validation
at construction, but a TransportConfig with a whatever-scheme URL (here
ftp to a remote host, with the default timeouts and limits) passes
__post_init__, which only tests emptiness and the http:// prefix; a
remote plaintext http URL is rejected as the claim says. -/
theorem transport_config_accepts_other_schemes :
    TransportConfig.post_init "ftp://example.com" 30 10 10 = .ok () ∧
    TransportConfig.post_init "http://example.com" 30 10 10 =
      .error (.valueError "Remote connections must use https://") := by
  constructor <;> rfl

/-- Bracket handling of the embedded urlparse agrees with CPython 3.11:
an unbalanced bracket is a ValueError, a bracket pair anywhere in the
hostinfo yields the bracketed host (so x[::1] parses to the loopback
::1 and is accepted), and a bracketed IPv4 address is a ValueError from
_check_bracketed_host. -/
theorem urlsplit_bracket_cases :
    TransportConfig.post_init "http://[::1" 30 10 10 = .error .urlparseError ∧
    TransportConfig.post_init "http://x[::1]/" 30 10 10 = .ok () ∧
    TransportConfig.post_init "http://[::1]:8080/mcp" 30 10 10 = .ok () ∧
    TransportConfig.post_init "http://[127.0.0.1]" 30 10 10 =
      .error .urlparseError := by
  refine ⟨?_, ?_, ?_, ?_⟩ <;> rfl

/-- The numeric checks accept exactly positive timeouts and a limit of at
least one. -/
theorem numericChecks_ok_iff (timeout connectTimeout : Rat)
    (maxConcurrentRequests : Int) :
    numericChecks timeout connectTimeout maxConcurrentRequests = .ok () ↔
      0 < timeout ∧ 0 < connectTimeout ∧ 1 ≤ maxConcurrentRequests := by
  unfold numericChecks
  split_ifs with h3 h4 h5
  · constructor
    · intro h; exact absurd h (by simp)
    · rintro ⟨ht, -, -⟩; exact absurd h3 (not_le.mpr ht)
  · constructor
    · intro h; exact absurd h (by simp)
    · rintro ⟨-, hc, -⟩; exact absurd h4 (not_le.mpr hc)
  · constructor
    · intro h; exact absurd h (by simp)
    · rintro ⟨-, -, hm⟩; exact absurd h5 (not_lt.mpr hm)
  · constructor
    · intro _; exact ⟨not_le.mp h3, not_le.mp h4, not_lt.mp h5⟩
    · intro _; rfl

/-- C6 as amended: TransportConfig construction accepts a URL exactly when
it is non-empty, is not an http:// URL whose urlparse hostname fails to be
loopback (localhost, 127.0.0.1, ::1) or whose netloc makes urlparse raise,
and the timeouts and request limit are positive; https:// URLs and URLs of
any other scheme are accepted, remote plaintext http being the only
scheme-level rejection.  Stated for ASCII URLs, on which the unmodeled
NFKC netloc check of urlsplit is a no-op. -/
theorem transport_config_validation (url : String)
    (timeout connectTimeout : Rat) (maxConcurrentRequests : Int)
    (hascii : url.data.all (fun c => c.toNat ≤ 127) = true) :
    TransportConfig.post_init url timeout connectTimeout maxConcurrentRequests
        = .ok () ↔
      url ≠ "" ∧ (startswith url "http://" = true → is_localhost url = .ok true) ∧
        0 < timeout ∧ 0 < connectTimeout ∧ 1 ≤ maxConcurrentRequests := by
  unfold TransportConfig.post_init
  by_cases h1 : url = ""
  · simp [h1]
  · rw [if_neg h1]
    by_cases h2 : startswith url "http://" = true
    · rw [if_pos h2]
      cases hl : is_localhost url with
      | error e =>
          constructor
          · intro h; simp at h
          · rintro ⟨-, hloc, -⟩; exact absurd (hloc h2) (by simp)
      | ok b =>
          cases b with
          | false =>
              constructor
              · intro h; simp at h
              · rintro ⟨-, hloc, -⟩; exact absurd (hloc h2) (by simp)
          | true =>
              simp only [numericChecks_ok_iff]
              constructor
              · rintro ⟨ht, hc, hm⟩; exact ⟨h1, fun _ => trivial, ht, hc, hm⟩
              · rintro ⟨-, -, ht, hc, hm⟩; exact ⟨ht, hc, hm⟩
    · rw [if_neg h2]
      rw [numericChecks_ok_iff]
      constructor
      · rintro ⟨ht, hc, hm⟩
        exact ⟨h1, fun hs => absurd hs h2, ht, hc, hm⟩
      · rintro ⟨-, -, ht, hc, hm⟩; exact ⟨ht, hc, hm⟩

/-- Witness for C6 amended: the theorem applied to a loopback bracketed
IPv6 http URL with the default configuration values. -/
theorem transport_config_validation_witness :
    ("http://[::1]:8080/mcp".data.all (fun c => c.toNat ≤ 127) = true) ∧
    (TransportConfig.post_init "http://[::1]:8080/mcp" 30 10 10 = .ok () ↔
      "http://[::1]:8080/mcp" ≠ "" ∧
        (startswith "http://[::1]:8080/mcp" "http://" = true →
          is_localhost "http://[::1]:8080/mcp" = .ok true) ∧
        (0 : Rat) < 30 ∧ (0 : Rat) < 10 ∧ (1 : Int) ≤ 10) :=
  ⟨by decide,
   transport_config_validation "http://[::1]:8080/mcp" 30 10 10 (by decide)⟩

/-! ## Protocol client (src/wingman/mcp/protocol/client.py),
cancellation utility (src/wingman/mcp/utilities/cancellation.py) and
capability negotiation (src/wingman/mcp/capabilities/negotiation.py) -/

/-- Error codes from src/wingman/mcp/protocol/errors.py. -/
def INTERNAL_ERROR : Int := -32603

/-- REQUEST_TIMEOUT code. -/
def REQUEST_TIMEOUT : Int := -32001

/-- REQUEST_CANCELLED code. -/
def REQUEST_CANCELLED : Int := -32002

/-- MCPError: code and human-readable message (the optional structured
data payload is not relevant to any claim and is omitted). -/
structure MCPError where
  code : Int
  message : String
deriving DecidableEq, Repr

/-- JSON scalar appearing in notification params on the modeled paths. -/
inductive PVal where
  | null
  | str (s : String)
deriving DecidableEq, Repr

/-- JSONRPCNotification: method plus params dict; the params key is
omitted from the wire dict when params is None. -/
structure JSONRPCNotification where
  method : String
  params : Option (List (String × PVal)) := none
deriving DecidableEq, Repr

/-- ProtocolStateMachine.is_connected (INITIALIZING or READY). -/
def isConnectedState : ProtocolState → Bool
  | .initializing => true
  | .ready => true
  | _ => false

/-- MCPClient.notify: raises MCPError(INTERNAL_ERROR) when not connected,
otherwise sends the notification over the transport. -/
def MCPClient.notify (state : ProtocolState) (method : String)
    (params : Option (List (String × PVal))) :
    Except MCPError JSONRPCNotification :=
  if ¬ isConnectedState state then
    .error ⟨INTERNAL_ERROR, "Client not connected"⟩
  else
    .ok ⟨method, params⟩

/-- MCPClient.cancel_request: unconditionally notifies the server with
requestId and reason (the reason key is present even for None), then pops
the local pending entry and fails its waiter with REQUEST_CANCELLED.  The
returned pair is the sent notification and the pending table afterwards. -/
def MCPClient.cancel_request (state : ProtocolState) (pending : List String)
    (requestId : String) (reason : Option String) :
    Except MCPError (JSONRPCNotification × List String) :=
  match MCPClient.notify state "notifications/cancelled"
      (some [("requestId", PVal.str requestId),
             ("reason", reason.elim PVal.null PVal.str)]) with
  | .error e => .error e
  | .ok sent => .ok (sent, pending.filter (· ≠ requestId))

/-- CancellationError from the cancellation utility. -/
structure CancellationError where
  message : String
deriving DecidableEq, Repr

/-- cancel_server_request: refuses the reserved id at the boundary before
sending anything; otherwise builds params (the reason key only when a
reason is given) and notifies the server. -/
def cancel_server_request (state : ProtocolState) (requestId : String)
    (reason : Option String) :
    Except (CancellationError ⊕ MCPError) JSONRPCNotification :=
  if requestId = "initialize" then
    .error (.inl ⟨"Cannot cancel initialize request"⟩)
  else
    let params := [("requestId", PVal.str requestId)] ++
      (match reason with
       | some r => [("reason", PVal.str r)]
       | none => [])
    match MCPClient.notify state "notifications/cancelled" (some params) with
    | .error e => .error (.inr e)
    | .ok sent => .ok sent

/-- C4 (code bug): the cancellation utility refuses to cancel the reserved
initialize id and sends nothing, but MCPClient.cancel_request has no such
guard: on a connected client it sends a notifications/cancelled
notification carrying requestId initialize and raises no
CancellationError, contradicting the claim for that entry point. -/
theorem cancel_initialize_guard_divergence :
    cancel_server_request ProtocolState.ready "initialize" none =
      .error (.inl ⟨"Cannot cancel initialize request"⟩) ∧
    MCPClient.cancel_request ProtocolState.ready ["initialize"] "initialize" none =
      .ok (⟨"notifications/cancelled",
            some [("requestId", PVal.str "initialize"), ("reason", PVal.null)]⟩,
           []) := by
  constructor <;> rfl

/-- IncompatibleProtocolError data. -/
structure IncompatibleProtocolError where
  serverVersion : String
deriving DecidableEq, Repr

/-- Protocol version constants from negotiation.py. -/
def SUPPORTED_VERSIONS : List String := ["2025-11-25", "2024-11-05"]

/-- Fields read from the initialize response by negotiate; server info and
capabilities are parsed but do not affect the emitted messages or the
state machine, so only the version matters here. -/
structure InitializeResponse where
  protocolVersion : String := ""
deriving DecidableEq, Repr

/-- MCPClient.mark_ready: INITIALIZING to READY, a no-op in any other
state. -/
def MCPClient.mark_ready (m : ProtocolStateMachine) : ProtocolStateMachine :=
  if m.state = ProtocolState.initializing then
    (m.transition ProtocolState.ready).1
  else m

/-- CapabilityNegotiator.negotiate after the initialize response arrives
(the response is the environment): validate the protocol version, parse
server info and capabilities, send the handshake-completion notification
via client.notify, and call client.mark_ready().  Returns the sent
notifications and the machine afterwards. -/
def CapabilityNegotiator.negotiate_response (m : ProtocolStateMachine)
    (resp : InitializeResponse) :
    Except (IncompatibleProtocolError ⊕ MCPError)
      (List JSONRPCNotification × ProtocolStateMachine) :=
  if resp.protocolVersion ∉ SUPPORTED_VERSIONS then
    .error (.inl ⟨resp.protocolVersion⟩)
  else
    match MCPClient.notify m.state "initialized" none with
    | .error e => .error (.inr e)
    | .ok sent => .ok ([sent], MCPClient.mark_ready m)

/-- C3 (code bug): for an initialize response with a supported
protocolVersion, negotiate does send exactly one handshake-completion
notification and then mark_ready() moves the client from INITIALIZING to
READY, but the notification method it sends is the bare string
initialized, not the notifications/initialized method the claim (and the
MCP wire protocol) requires. -/
theorem negotiate_sends_bare_initialized_method :
    CapabilityNegotiator.negotiate_response ⟨ProtocolState.initializing, 0⟩
        { protocolVersion := "2025-11-25" } =
      .ok ([⟨"initialized", none⟩], ⟨ProtocolState.ready, 0⟩) ∧
    "initialized" ≠ "notifications/initialized" := by
  constructor
  · rfl
  · decide

/-! ## MCPClient.request (src/wingman/mcp/protocol/client.py)

The call is modeled against an environment supplying what the transport
and the event loop decide: the outcome of transport.send, and what the
awaited response future yields when the immediate response did not already
resolve it.  The pending-request table is the list of in-flight ids; only
the future belonging to this call is tracked, since resolving another
caller's future does not change this call's outcome or the table. -/

/-- JSONRPCResponse as relevant to _handle_response: its id (already
str()-normalized), its result, and its error. -/
structure ResponseMsg (α : Type) where
  id : Option String := none
  result : Option α := none
  error : Option MCPError := none

/-- Errors raised by transport.send (transport/base.py hierarchy); all are
plain Exceptions, none is an asyncio.TimeoutError or CancelledError. -/
inductive TransportExn where
  | connectionExn (msg : String)
  | timeoutExn (msg : String)
  | sessionExn (msg : String)
  | transportExn (msg : String)
deriving DecidableEq, Repr

/-- Environment: what await transport.send(...) does. -/
inductive SendOutcome (α : Type) where
  | ok (immediate : Option (ResponseMsg α))
  | raised (e : TransportExn)

/-- Environment: how the await of the response future settles when the
immediate response did not resolve it: a response correlated by the
receive loop, the asyncio.wait_for deadline, or an external cancel. -/
inductive AwaitEvent (α : Type) where
  | resolved (r : Except MCPError (Option α))
  | timedOut
  | cancelledEv

/-- How one MCPClient.request call settles. -/
inductive RequestOutcome (α : Type) where
  | success (v : Option α)
  | raisedMCP (e : MCPError)
  | raisedTransport (e : TransportExn)

/-- MCPClient._handle_response restricted to the future of this call:
the value this call's future is resolved with, if the response addresses
it (a response without id or for an unknown or foreign id is dropped with
a warning). -/
def handle_response {α : Type} (reqId : String) (pending : List String)
    (resp : ResponseMsg α) : Option (Except MCPError (Option α)) :=
  match resp.id with
  | none => none
  | some rid =>
      if rid ∈ pending ∧ rid = reqId then
        match resp.error with
        | some e => some (.error e)
        | none => some (.ok resp.result)
      else none

/-- MCPClient.request: gate on connection state and on the pending cap,
insert the waiter, send, feed a non-None immediate response through
_handle_response, await the future, convert asyncio.TimeoutError and
CancelledError to MCPErrors, and always pop the waiter on the way out
(the finally clause).  timeoutMsg is the formatted timeout message. -/
def MCPClient.request {α : Type} (state : ProtocolState)
    (pending : List String) (maxPending : Nat) (reqId : String)
    (send : SendOutcome α) (ev : AwaitEvent α) (timeoutMsg : String) :
    RequestOutcome α × List String :=
  if ¬ isConnectedState state then
    (.raisedMCP ⟨INTERNAL_ERROR, "Client not connected"⟩, pending)
  else if maxPending ≤ pending.length then
    (.raisedMCP ⟨INTERNAL_ERROR, "Too many pending requests"⟩, pending)
  else
    let pending1 := reqId :: pending
    match send with
    | .raised e => (.raisedTransport e, pending1.filter (· ≠ reqId))
    | .ok imm =>
        let futureNow : Option (Except MCPError (Option α)) :=
          imm.bind (handle_response reqId pending1)
        let settled : AwaitEvent α :=
          match futureNow with
          | some r => .resolved r
          | none => ev
        match settled with
        | .resolved (.ok v) => (.success v, pending1.filter (· ≠ reqId))
        | .resolved (.error e) => (.raisedMCP e, pending1.filter (· ≠ reqId))
        | .timedOut =>
            (.raisedMCP ⟨REQUEST_TIMEOUT, timeoutMsg⟩, pending1.filter (· ≠ reqId))
        | .cancelledEv =>
            (.raisedMCP ⟨REQUEST_CANCELLED, "Request cancelled"⟩,
             pending1.filter (· ≠ reqId))

/-- A some error value out of _handle_response always carries the error of
the response it was fed. -/
theorem handle_response_error_source {α : Type} (reqId : String)
    (pending : List String) (resp : ResponseMsg α) (e : MCPError)
    (h : handle_response reqId pending resp = some (.error e)) :
    resp.error = some e := by
  obtain ⟨rid, res, err⟩ := resp
  cases rid with
  | none => simp [handle_response] at h
  | some rid =>
      simp only [handle_response] at h
      split_ifs at h with hc
      · cases err with
        | none => simp at h
        | some e2 => simp at h ⊢; exact h

/-- C2 as amended: every accepted request call (client connected and
pending table under the cap) settles in exactly one of FOUR mutually
exclusive ways: the response result is returned; an MCPError is raised,
which is either the error of the correlated response or a
REQUEST_TIMEOUT/REQUEST_CANCELLED error; or a transport error raised by
transport.send propagates; and in every case the pending table holds no
entry for the request id after the call settles. -/
theorem request_settles_once_and_cleans {α : Type} (state : ProtocolState)
    (pending : List String) (maxPending : Nat) (reqId : String)
    (send : SendOutcome α) (ev : AwaitEvent α) (timeoutMsg : String)
    (hconn : isConnectedState state = true)
    (hcap : pending.length < maxPending) :
    reqId ∉ (MCPClient.request state pending maxPending reqId send ev timeoutMsg).2 ∧
    ((∃ v, (MCPClient.request state pending maxPending reqId send ev timeoutMsg).1 =
        RequestOutcome.success v) ∨
      (∃ e, (MCPClient.request state pending maxPending reqId send ev timeoutMsg).1 =
          RequestOutcome.raisedMCP e ∧
        (ev = AwaitEvent.resolved (.error e) ∨
          (∃ resp, send = SendOutcome.ok (some resp) ∧ resp.error = some e) ∨
          e = ⟨REQUEST_TIMEOUT, timeoutMsg⟩ ∨
          e = ⟨REQUEST_CANCELLED, "Request cancelled"⟩)) ∨
      (∃ e, send = SendOutcome.raised e ∧
        (MCPClient.request state pending maxPending reqId send ev timeoutMsg).1 =
          RequestOutcome.raisedTransport e)) := by
  unfold MCPClient.request
  rw [if_neg (show ¬¬isConnectedState state = true by simp [hconn]),
    if_neg (Nat.not_le.mpr hcap)]
  have hclean : reqId ∉ (reqId :: pending).filter (· ≠ reqId) := by
    simp [List.mem_filter]
  cases send with
  | raised e =>
      exact ⟨hclean, Or.inr (Or.inr ⟨e, rfl, rfl⟩)⟩
  | ok imm =>
      refine ⟨?_, ?_⟩
      · cases hf : imm.bind (handle_response reqId (reqId :: pending)) with
        | none =>
            cases ev with
            | resolved r => cases r <;> simp [hf, hclean, List.mem_filter]
            | timedOut => simp [hf, hclean, List.mem_filter]
            | cancelledEv => simp [hf, hclean, List.mem_filter]
        | some r => cases r <;> simp [hf, hclean, List.mem_filter]
      · cases hf : imm.bind (handle_response reqId (reqId :: pending)) with
        | some r =>
            cases r with
            | ok v => exact Or.inl ⟨v, by simp [hf]⟩
            | error e =>
                refine Or.inr (Or.inl ⟨e, by simp [hf], Or.inr (Or.inl ?_)⟩)
                cases imm with
                | none => simp at hf
                | some resp =>
                    rw [Option.some_bind] at hf
                    exact ⟨resp, rfl, handle_response_error_source _ _ _ _ hf⟩
        | none =>
            cases ev with
            | resolved r =>
                cases r with
                | ok v => exact Or.inl ⟨v, by simp [hf]⟩
                | error e =>
                    exact Or.inr (Or.inl ⟨e, by simp [hf], Or.inl rfl⟩)
            | timedOut =>
                exact Or.inr (Or.inl ⟨_, by simp [hf], Or.inr (Or.inr (Or.inl rfl))⟩)
            | cancelledEv =>
                exact Or.inr (Or.inl ⟨_, by simp [hf], Or.inr (Or.inr (Or.inr rfl))⟩)

/-- C2 counterexample: an accepted request call (connected client, empty
pending table, cap 100) during which transport.send raises a
ConnectionError settles with that transport error — a fourth outcome that
is neither a returned result nor a raised MCPError — though the pending
table is still left clean. -/
theorem request_transport_error_fourth_outcome :
    MCPClient.request (α := Unit) ProtocolState.ready [] 100 "r1"
        (SendOutcome.raised (TransportExn.connectionExn "boom"))
        AwaitEvent.timedOut "Request timed out after 60.0s" =
      (RequestOutcome.raisedTransport (TransportExn.connectionExn "boom"), []) := by
  rfl

/-- Witness for C2 amended: the theorem applied to a concrete accepted
call whose await times out. -/
theorem request_settles_once_and_cleans_witness :
    (isConnectedState ProtocolState.ready = true ∧ ([] : List String).length < 100) ∧
    ("r1" ∉ (MCPClient.request (α := Unit) ProtocolState.ready [] 100 "r1"
        (SendOutcome.ok none) AwaitEvent.timedOut "Request timed out after 60.0s").2 ∧
      ((∃ v, (MCPClient.request (α := Unit) ProtocolState.ready [] 100 "r1"
          (SendOutcome.ok none) AwaitEvent.timedOut "Request timed out after 60.0s").1 =
          RequestOutcome.success v) ∨
        (∃ e, (MCPClient.request (α := Unit) ProtocolState.ready [] 100 "r1"
            (SendOutcome.ok none) AwaitEvent.timedOut "Request timed out after 60.0s").1 =
            RequestOutcome.raisedMCP e ∧
          (AwaitEvent.timedOut (α := Unit) = AwaitEvent.resolved (.error e) ∨
            (∃ resp, SendOutcome.ok (α := Unit) none = SendOutcome.ok (some resp) ∧
              resp.error = some e) ∨
            e = ⟨REQUEST_TIMEOUT, "Request timed out after 60.0s"⟩ ∨
            e = ⟨REQUEST_CANCELLED, "Request cancelled"⟩)) ∨
        (∃ e, SendOutcome.ok (α := Unit) none = SendOutcome.raised e ∧
          (MCPClient.request (α := Unit) ProtocolState.ready [] 100 "r1"
            (SendOutcome.ok none) AwaitEvent.timedOut "Request timed out after 60.0s").1 =
            RequestOutcome.raisedTransport e))) :=
  ⟨⟨rfl, by decide⟩,
   request_settles_once_and_cleans ProtocolState.ready [] 100 "r1"
     (SendOutcome.ok none) AwaitEvent.timedOut "Request timed out after 60.0s"
     rfl (by decide)⟩

end Wingman
